import Mathlib

/-!
Verification of the offline asset-caching layer of clinic-cam-vault
(`src/public/sw.js`): a shallow embedding of the service-worker fetch
routing, the `cacheFirst` / `networkFirst` strategies, the cacheability
predicate, and the install/activate lifecycle, together with theorems
settling the specification's claims about them.

Modelling conventions:
* A `Response` is its observable record (status, statusText, type, body).
* A cache (the `Cache` API object) is an association list from request
  key (the request's URL string) to the stored response; `put` overwrites.
* The `CacheStorage` (global `caches`) is an association list from cache
  name to cache, in creation order; `caches.match` searches the caches in
  that order.
* The network is a function `Request → Option Response`; `none` models a
  rejected `fetch` (network failure).
* `cache.put` is invoked by the source without `await` (fire and forget);
  whether that asynchronous write eventually succeeds is modelled by the
  boolean `putOk`, which selects whether the store lands in the cache.
* Each strategy returns the outcome delivered to the caller, the cache
  storage afterwards, and a trace of the effects it performed (cache
  opens/reads/writes and network fetches).
-/

namespace SW

/-- Observable part of a `Response`: `status`, `statusText`, `type`
(`"basic"`, `"cors"`, `"default"`, `"error"`, `"opaque"`,
`"opaqueredirect"`), and body text. -/
structure Response where
  status : Nat
  statusText : String
  type : String
  body : String
deriving Repr, DecidableEq

/-- Observable part of a `Request` as used by `sw.js`: `method`, the full
URL string `url` (also the cache key), the parsed `pathname` and `origin`
of `new URL(req.url)`, the `range` header (`none` when absent),
`req.mode` and `req.destination`. -/
structure Request where
  method : String
  url : String
  pathname : String
  origin : String
  rangeHeader : Option String
  mode : String
  destination : String
deriving Repr, DecidableEq

/-- A named cache's contents: request key (URL) to stored response. -/
abbrev Cache := List (String × Response)

/-- The global cache storage: cache name to cache, in creation order. -/
abbrev CacheStorage := List (String × Cache)

/-- The network: `none` models a rejected `fetch(req)`. -/
abbrev Network := Request → Option Response

/-- `self.location` data the worker consults. -/
structure SWEnv where
  hostname : String
  port : String
  origin : String
deriving Repr, DecidableEq

/-- `const CACHE_VERSION = 'v4'` (sw.js line 2). -/
def CACHE_VERSION : String := "v4"

/-- `` const STATIC_CACHE = `static-${CACHE_VERSION}` `` (sw.js line 3). -/
def STATIC_CACHE : String := "static-" ++ CACHE_VERSION

/-- `` const RUNTIME_CACHE = `runtime-${CACHE_VERSION}` `` (sw.js line 4). -/
def RUNTIME_CACHE : String := "runtime-" ++ CACHE_VERSION

/-- `const DEV_HOSTS = ['localhost', '127.0.0.1']` (sw.js line 7). -/
def DEV_HOSTS : List String := ["localhost", "127.0.0.1"]

/-- `const DEV_PORT = '8080'` (sw.js line 8). -/
def DEV_PORT : String := "8080"

/-- `IS_DEV_SCOPE` (sw.js line 9), as a function of `self.location`. -/
def IS_DEV_SCOPE (env : SWEnv) : Bool :=
  DEV_HOSTS.contains env.hostname && env.port == DEV_PORT

/-- `PRECACHE_URLS` (sw.js lines 12-17). -/
def PRECACHE_URLS : List String := ["/", "/manifest.json", "/favicon.ico"]

/-- `cache.match(req)`: first stored entry whose key equals the URL. -/
def cacheMatch (c : Cache) (url : String) : Option Response :=
  (c.find? (fun p => p.1 == url)).map (fun p => p.2)

/-- `cache.put(req, res)`: overwrite any entry for the key. -/
def cachePut (c : Cache) (url : String) (res : Response) : Cache :=
  (url, res) :: c.filter (fun p => p.1 != url)

/-- Contents of the named cache (`[]` when it does not exist yet). -/
def storageGet (cs : CacheStorage) (name : String) : Cache :=
  ((cs.find? (fun p => p.1 == name)).map (fun p => p.2)).getD []

/-- `caches.open(name)`: create the named cache when missing. -/
def storageOpen (cs : CacheStorage) (name : String) : CacheStorage :=
  if cs.any (fun p => p.1 == name) then cs else cs ++ [(name, [])]

/-- Replace the contents of the (first) cache with the given name. -/
def storageSet : CacheStorage → String → Cache → CacheStorage
  | [], name, c => [(name, c)]
  | (n, c0) :: rest, name, c =>
      if n == name then (name, c) :: rest else (n, c0) :: storageSet rest name c

/-- `caches.match(url)`: search every cache, in creation order. -/
def storageMatch (cs : CacheStorage) (url : String) : Option Response :=
  cs.findSome? (fun p => cacheMatch p.2 url)

/-- `caches.keys()`. -/
def storageKeys (cs : CacheStorage) : List String := cs.map (fun p => p.1)

/-- Structural `List Char` test that `p` begins the list. -/
def listStarts : List Char → List Char → Bool
  | [], _ => true
  | _ :: _, [] => false
  | a :: p, b :: s => a == b && listStarts p s

/-- `String.prototype.startsWith`, computed structurally on the
character list so that concrete instances reduce in the kernel. -/
def strStarts (s p : String) : Bool := listStarts p.data s.data

/-- `isCacheableResponse` (sw.js lines 153-159). The `try` around the
field reads cannot fail on a record, so the predicate is the boolean. -/
def isCacheableResponse (res : Response) : Bool :=
  res.status == 200 &&
    (res.type == "basic" || res.type == "opaqueredirect" || res.type == "default")

/-- `req.headers.get('range')` is truthy: present and not the empty
string (the empty string is falsy in JavaScript). -/
def hasRange (req : Request) : Bool :=
  match req.rangeHeader with
  | none => false
  | some s => s != ""

/-- What the caller of a strategy receives: a response, or a propagated
(re-thrown) network failure. -/
inductive Outcome where
  | ok (res : Response)
  | thrown
deriving Repr, DecidableEq

/-- One observable effect of a strategy. -/
inductive Eff where
  | openCache (name : String)
  | cacheRead (name : String) (url : String)
  | cacheMatchAll (url : String)
  | cacheWrite (name : String) (url : String)
  | netFetch (url : String)
deriving Repr, DecidableEq

/-- Result of running one handled request: the outcome returned to the
caller, the cache storage afterwards, and the effect trace. -/
structure StepResult where
  outcome : Outcome
  storage : CacheStorage
  trace : List Eff
deriving Repr, DecidableEq

/-- `new Response('Offline', { status: 503, statusText: 'Service Unavailable' })`
(sw.js line 149); a constructed response has type `"default"`. -/
def offlineResponse : Response :=
  { status := 503, statusText := "Service Unavailable", type := "default", body := "Offline" }

/-- `cacheFirst` (sw.js lines 113-131). `putOk` models whether the
un-awaited `cache.put` promise succeeds. -/
def cacheFirst (net : Network) (cs : CacheStorage) (req : Request) (putOk : Bool) :
    StepResult :=
  let cs1 := storageOpen cs RUNTIME_CACHE
  let cache := storageGet cs1 RUNTIME_CACHE
  let ops := [Eff.openCache RUNTIME_CACHE, Eff.cacheRead RUNTIME_CACHE req.url]
  match cacheMatch cache req.url with
  | some cached => ⟨Outcome.ok cached, cs1, ops⟩
  | none =>
    let ops := ops ++ [Eff.netFetch req.url]
    match net req with
    | some res =>
      if isCacheableResponse res then
        let cs2 := if putOk then storageSet cs1 RUNTIME_CACHE (cachePut cache req.url res) else cs1
        ⟨Outcome.ok res, cs2, ops ++ [Eff.cacheWrite RUNTIME_CACHE req.url]⟩
      else
        ⟨Outcome.ok res, cs1, ops⟩
    | none =>
      if req.mode == "navigate" then
        let ops := ops ++ [Eff.cacheMatchAll "/"]
        match storageMatch cs1 "/" with
        | some fallback => ⟨Outcome.ok fallback, cs1, ops⟩
        | none => ⟨Outcome.thrown, cs1, ops⟩
      else
        ⟨Outcome.thrown, cs1, ops⟩

/-- `networkFirst` (sw.js lines 133-151). `putOk` models whether the
un-awaited `cache.put` promise succeeds. -/
def networkFirst (net : Network) (cs : CacheStorage) (req : Request)
    (isNavigation : Bool) (putOk : Bool) : StepResult :=
  let cs1 := storageOpen cs RUNTIME_CACHE
  let cache := storageGet cs1 RUNTIME_CACHE
  let ops := [Eff.openCache RUNTIME_CACHE, Eff.netFetch req.url]
  match net req with
  | some res =>
    if isCacheableResponse res then
      let cs2 := if putOk then storageSet cs1 RUNTIME_CACHE (cachePut cache req.url res) else cs1
      ⟨Outcome.ok res, cs2, ops ++ [Eff.cacheWrite RUNTIME_CACHE req.url]⟩
    else
      ⟨Outcome.ok res, cs1, ops⟩
  | none =>
    let ops := ops ++ [Eff.cacheRead RUNTIME_CACHE req.url]
    match cacheMatch cache req.url with
    | some cached => ⟨Outcome.ok cached, cs1, ops⟩
    | none =>
      if isNavigation then
        let ops := ops ++ [Eff.cacheMatchAll "/"]
        match storageMatch cs1 "/" with
        | some fallback => ⟨Outcome.ok fallback, cs1, ops⟩
        | none => ⟨Outcome.ok offlineResponse, cs1, ops⟩
      else
        ⟨Outcome.ok offlineResponse, cs1, ops⟩

/-- `assetLike` (sw.js lines 99-101). -/
def assetLike (req : Request) : Bool :=
  strStarts req.pathname "/assets/" ||
    ["script", "style", "image", "font"].contains req.destination

/-- The excluded paths of sw.js lines 70-77: the worker's own script and
the Vite dev/HMR endpoints. -/
def excludedPath (p : String) : Bool :=
  p == "/sw.js" || strStarts p "/@vite" || strStarts p "/@react-refresh" ||
    strStarts p "/src/"

/-- `event.respondWith(fetch(req))` (sw.js line 86): answer with a direct
network forward; no cache is opened, read or written. -/
def networkOnly (net : Network) (cs : CacheStorage) (req : Request) : StepResult :=
  match net req with
  | some res => ⟨Outcome.ok res, cs, [Eff.netFetch req.url]⟩
  | none => ⟨Outcome.thrown, cs, [Eff.netFetch req.url]⟩

/-- The `fetch` event handler (sw.js lines 58-111). `none` means the
handler returned without calling `event.respondWith`: the request falls
through to default browser networking. -/
def handleFetch (env : SWEnv) (net : Network) (cs : CacheStorage) (req : Request)
    (putOk : Bool) : Option StepResult :=
  if IS_DEV_SCOPE env then none
  else if req.method != "GET" then none
  else if excludedPath req.pathname then none
  else if strStarts req.url "blob:" then none
  else if hasRange req then some (networkOnly net cs req)
  else if req.origin != env.origin then none
  else if req.mode == "navigate" then some (networkFirst net cs req true putOk)
  else if assetLike req then some (cacheFirst net cs req putOk)
  else some (networkFirst net cs req false putOk)

/-- `cache.addAll(urls)` (sw.js line 28): fetch every URL; reject if any
fetch fails or returns a non-ok (outside 200-299) status. `netU` is the
network keyed by URL string. -/
def fetchAll (netU : String → Option Response) : List String → Option (List (String × Response))
  | [] => some []
  | u :: us =>
    match netU u with
    | some r =>
        if 200 ≤ r.status && r.status < 300 then
          (fetchAll netU us).map (fun l => (u, r) :: l)
        else none
    | none => none

/-- The `install` handler (sw.js lines 19-33): in dev scope do nothing;
otherwise open the static cache and `addAll` the precache manifest.
`none` models a failed installation. -/
def installSW (env : SWEnv) (netU : String → Option Response) (cs : CacheStorage) :
    Option CacheStorage :=
  if IS_DEV_SCOPE env then some cs
  else
    match fetchAll netU PRECACHE_URLS with
    | none => none
    | some entries =>
      let cs1 := storageOpen cs STATIC_CACHE
      let c := entries.foldl (fun acc p => cachePut acc p.1 p.2) (storageGet cs1 STATIC_CACHE)
      some (storageSet cs1 STATIC_CACHE c)

/-- The `activate` handler (sw.js lines 35-50): delete every cache whose
name is neither `STATIC_CACHE` nor `RUNTIME_CACHE`. -/
def activateSW (cs : CacheStorage) : CacheStorage :=
  cs.filter (fun p => p.1 == STATIC_CACHE || p.1 == RUNTIME_CACHE)

/-- The Interception Scope as the specification's data model defines it
(spec section 3): same-origin GET requests, excluding the controller's
own script, the internal live-reload/dev endpoints, and non-http(s)
schemes such as `blob:`. Written from the spec's words, to be compared
with the handler's behaviour. -/
def specInScope (env : SWEnv) (req : Request) : Bool :=
  req.method == "GET" && req.origin == env.origin &&
    !excludedPath req.pathname && !strStarts req.url "blob:"

/-! Concrete fixtures for witnesses and counterexamples: a production
(non-dev) worker location, a handful of responses, networks, requests
and cache-storage states. -/

/-- A production `self.location`: host not in `DEV_HOSTS`. -/
def env0 : SWEnv := ⟨"app.example", "443", "https://app.example"⟩

/-- The cached app-shell root document. -/
def shellRes : Response := ⟨200, "OK", "basic", "shell-html"⟩

/-- The precached web-app manifest. -/
def manifestRes : Response := ⟨200, "OK", "basic", "manifest-body"⟩

/-- The precached favicon. -/
def favRes : Response := ⟨200, "OK", "basic", "favicon-body"⟩

/-- A successful same-origin script response. -/
def scriptRes : Response := ⟨200, "OK", "basic", "console.log(1)"⟩

/-- A status-404 response. -/
def notFoundRes : Response := ⟨404, "Not Found", "basic", "nope"⟩

/-- A status-200 response whose type is `"opaqueredirect"`: a redirect
treated as opaque. -/
def opaqueRedirectRes : Response := ⟨200, "OK", "opaqueredirect", ""⟩

/-- A cross-origin partial-content response. -/
def videoRes : Response := ⟨206, "Partial Content", "cors", "bytes"⟩

/-- A network that always answers with the given response. -/
def netConst (r : Response) : Network := fun _ => some r

/-- An unreachable network: every `fetch` rejects. -/
def netDown : Network := fun _ => none

/-- A URL-keyed network serving the precache manifest, for `installSW`. -/
def netPre : String → Option Response := fun u =>
  if u == "/" then some shellRes
  else if u == "/manifest.json" then some manifestRes
  else if u == "/favicon.ico" then some favRes
  else none

/-- Same-origin GET for a built asset (destination `script`). -/
def reqAsset : Request :=
  ⟨"GET", "/assets/app.js", "/assets/app.js", "https://app.example", none, "no-cors", "script"⟩

/-- GET for the controller's own script. -/
def reqSw : Request :=
  ⟨"GET", "/sw.js", "/sw.js", "https://app.example", none, "no-cors", "script"⟩

/-- A non-GET same-origin request. -/
def reqPost : Request :=
  ⟨"POST", "/api/upload", "/api/upload", "https://app.example", none, "cors", ""⟩

/-- A plain same-origin GET (destination empty: not asset-like). -/
def reqApi : Request :=
  ⟨"GET", "/api/data", "/api/data", "https://app.example", none, "cors", ""⟩

/-- A navigation to `/manifest.json`, whose entry lives only in the
static generation. -/
def reqManifestNav : Request :=
  ⟨"GET", "/manifest.json", "/manifest.json", "https://app.example", none, "navigate", "document"⟩

/-- A navigation to an uncached page. -/
def reqNav : Request :=
  ⟨"GET", "/page", "/page", "https://app.example", none, "navigate", "document"⟩

/-- GET for the favicon (destination `image`), routed cache-first. -/
def reqFav : Request :=
  ⟨"GET", "/favicon.ico", "/favicon.ico", "https://app.example", none, "no-cors", "image"⟩

/-- A same-origin GET carrying a byte-range header. -/
def reqRange : Request :=
  ⟨"GET", "/video.webm", "/video.webm", "https://app.example", some "bytes=1000-2000", "no-cors", "video"⟩

/-- A cross-origin GET carrying a byte-range header. -/
def reqCrossRange : Request :=
  ⟨"GET", "https://cdn.example.net/v.mp4", "/v.mp4", "https://cdn.example.net",
    some "bytes=0-99", "no-cors", "video"⟩

/-- Storage holding only an empty runtime generation. -/
def csRT : CacheStorage := [(RUNTIME_CACHE, [])]

/-- Storage as left by a fresh install: precache entries in the static
generation, an empty runtime generation. -/
def csShell : CacheStorage :=
  [(STATIC_CACHE, [("/", shellRes), ("/manifest.json", manifestRes)]), (RUNTIME_CACHE, [])]

/-- Storage whose runtime generation holds an entry for `/assets/app.js`. -/
def csHit : CacheStorage := [(RUNTIME_CACHE, [("/assets/app.js", scriptRes)])]

/-- The storage `installSW` builds from an empty storage over `netPre`. -/
def csInstalled : CacheStorage :=
  [(STATIC_CACHE, [("/favicon.ico", favRes), ("/manifest.json", manifestRes), ("/", shellRes)])]

/-! Helper lemmas about the cache-storage operations. -/

/-- If the named cache holds a matching entry, the name already exists,
so `caches.open` leaves the storage unchanged. -/
theorem storageOpen_eq_of_match (cs : CacheStorage) (name url : String) (r : Response)
    (h : cacheMatch (storageGet cs name) url = some r) :
    storageOpen cs name = cs := by
  have hany : cs.any (fun p => p.1 == name) = true := by
    cases hf : cs.find? (fun p => p.1 == name) with
    | none => simp [storageGet, hf, cacheMatch] at h
    | some p =>
        have hp := List.find?_some hf
        exact List.any_eq_true.mpr ⟨p, List.mem_of_find?_eq_some hf, hp⟩
  simp [storageOpen, hany]

/-- Opening a cache does not change what that cache contains. -/
theorem storageGet_storageOpen (cs : CacheStorage) (name : String) :
    storageGet (storageOpen cs name) name = storageGet cs name := by
  by_cases hany : cs.any (fun p => p.1 == name) = true
  · simp [storageOpen, hany]
  · have hfalse : cs.any (fun p => p.1 == name) = false := by
      cases h : cs.any (fun p => p.1 == name)
      · rfl
      · exact absurd h hany
    have hnone : cs.find? (fun p => p.1 == name) = none :=
      List.find?_eq_none.mpr (fun x hx => by
        have := List.any_eq_false.mp hfalse x hx
        simpa using this)
    have h2 : (cs ++ [(name, ([] : Cache))]).find? (fun p => p.1 == name) = some (name, []) := by
      rw [List.find?_append, hnone]
      simp [List.find?]
    simp [storageOpen, hany, storageGet, hnone, h2]

/-- When `caches.match` finds nothing for a URL, no individual cache
holds an entry for it. -/
theorem cacheMatch_of_storageMatch_none (cs : CacheStorage) (url name : String)
    (h : storageMatch cs url = none) :
    cacheMatch (storageGet cs name) url = none := by
  cases hf : cs.find? (fun p => p.1 == name) with
  | none => simp [storageGet, hf, cacheMatch]
  | some p =>
      have hmem := List.mem_of_find?_eq_some hf
      unfold storageMatch at h
      have hnone := List.findSome?_eq_none_iff.mp h p hmem
      simp [storageGet, hf, hnone]

/-! Theorems settling the specification's claims. -/

/-- C7: after the activation step, a cache generation's name is present
exactly when it was present before and equals the current static
generation name or the current runtime generation name; every other
generation has been deleted, and the current pair persists. -/
theorem activation_gc_C7 (cs : CacheStorage) (name : String) :
    name ∈ storageKeys (activateSW cs) ↔
      name ∈ storageKeys cs ∧ (name = STATIC_CACHE ∨ name = RUNTIME_CACHE) := by
  simp only [storageKeys, activateSW, List.mem_map, List.mem_filter,
    Bool.or_eq_true, beq_iff_eq]
  constructor
  · rintro ⟨p, ⟨hmem, hor⟩, rfl⟩
    exact ⟨⟨p, hmem, rfl⟩, hor⟩
  · rintro ⟨⟨p, hmem, rfl⟩, hor⟩
    exact ⟨p, ⟨hmem, hor⟩, rfl⟩

/-- C10: a request for the controller's own script path, for one of the
internal dev-tooling path prefixes, or whose method is not GET is left
completely unhandled: the fetch handler answers `none`, so no strategy
runs and no cache is read or written. -/
theorem scope_exclusion_C10 (env : SWEnv) (net : Network) (cs : CacheStorage)
    (req : Request) (putOk : Bool)
    (h : req.method ≠ "GET" ∨ excludedPath req.pathname = true) :
    handleFetch env net cs req putOk = none := by
  unfold handleFetch
  cases hdev : IS_DEV_SCOPE env with
  | true => simp [hdev]
  | false =>
    rcases h with h | h
    · have hb : (req.method != "GET") = true := bne_iff_ne.mpr h
      simp [hdev, hb]
    · cases hm : (req.method != "GET") with
      | true => simp [hdev, hm]
      | false => simp [hdev, hm, h]

/-- Witness for C10: a GET for `/sw.js` and a POST are both unhandled. -/
theorem scope_exclusion_witness_C10 :
    handleFetch env0 netDown csRT reqSw true = none ∧
      handleFetch env0 netDown csRT reqPost true = none :=
  ⟨scope_exclusion_C10 env0 netDown csRT reqSw true (Or.inr (by decide)),
   scope_exclusion_C10 env0 netDown csRT reqPost true (Or.inl (by decide))⟩

/-- C8: a GET request carrying a (truthy) byte-range header is either
left to default browser networking or answered by `networkOnly`, a
direct network forward that leaves the cache storage unchanged and whose
only effect is the network fetch — no cache is consulted or populated. -/
theorem range_bypass_C8 (env : SWEnv) (net : Network) (cs : CacheStorage)
    (req : Request) (putOk : Bool)
    (hm : req.method = "GET") (hr : hasRange req = true) :
    (handleFetch env net cs req putOk = none ∨
      handleFetch env net cs req putOk = some (networkOnly net cs req)) ∧
    (networkOnly net cs req).storage = cs ∧
    (networkOnly net cs req).trace = [Eff.netFetch req.url] := by
  refine ⟨?_, ?_, ?_⟩
  · unfold handleFetch
    cases hdev : IS_DEV_SCOPE env with
    | true => exact Or.inl (by simp [hdev])
    | false =>
      cases hex : excludedPath req.pathname with
      | true => exact Or.inl (by simp [hdev, hm, hex])
      | false =>
        cases hblob : strStarts req.url "blob:" with
        | true => exact Or.inl (by simp [hdev, hm, hex, hblob])
        | false => exact Or.inr (by simp [hdev, hm, hex, hblob, hr])
  · unfold networkOnly
    cases net req <;> rfl
  · unfold networkOnly
    cases net req <;> rfl

/-- Witness for C8: a same-origin ranged GET is answered by the direct
network forward, cache untouched. -/
theorem range_bypass_witness_C8 :
    (handleFetch env0 (netConst videoRes) csRT reqRange true = none ∨
      handleFetch env0 (netConst videoRes) csRT reqRange true =
        some (networkOnly (netConst videoRes) csRT reqRange)) ∧
    (networkOnly (netConst videoRes) csRT reqRange).storage = csRT ∧
    (networkOnly (netConst videoRes) csRT reqRange).trace = [Eff.netFetch reqRange.url] :=
  range_bypass_C8 env0 (netConst videoRes) csRT reqRange true rfl (by decide)

/-- Counterexample to C2 as stated: `reqCrossRange` is a cross-origin
GET (outside the Interception Scope), yet because the byte-range check
precedes the same-origin check the handler does answer it. -/
theorem scope_answered_counterexample_C2 :
    specInScope env0 reqCrossRange = false ∧
      handleFetch env0 (netConst videoRes) csRT reqCrossRange true ≠ none := by
  refine ⟨by decide, ?_⟩
  decide

/-- C2 (amended): a request outside the Interception Scope is never
answered by the controller, except that a GET carrying a byte-range
header reaching the range branch (the range check precedes the
same-origin check) is answered with the direct network forward
`networkOnly`, which touches no cache. -/
theorem scope_untouched_amended_C2 (env : SWEnv) (net : Network) (cs : CacheStorage)
    (req : Request) (putOk : Bool)
    (h : specInScope env req = false) :
    handleFetch env net cs req putOk = none ∨
      (hasRange req = true ∧
        handleFetch env net cs req putOk = some (networkOnly net cs req)) := by
  unfold handleFetch
  cases hdev : IS_DEV_SCOPE env with
  | true => exact Or.inl (by simp [hdev])
  | false =>
    cases hm : (req.method != "GET") with
    | true => exact Or.inl (by simp [hdev, hm])
    | false =>
      cases hex : excludedPath req.pathname with
      | true => exact Or.inl (by simp [hdev, hm, hex])
      | false =>
        cases hblob : strStarts req.url "blob:" with
        | true => exact Or.inl (by simp [hdev, hm, hex, hblob])
        | false =>
          cases hr : hasRange req with
          | true => exact Or.inr ⟨rfl, by simp [hdev, hm, hex, hblob, hr]⟩
          | false =>
            have hm' : (req.method == "GET") = true := by
              cases hmm : (req.method == "GET")
              · rw [bne, hmm] at hm
                exact absurd hm (by decide)
              · rfl
            have horig : (req.origin == env.origin) = false := by
              cases ho : (req.origin == env.origin)
              · rfl
              · rw [specInScope, hm', ho, hex, hblob] at h
                exact absurd h (by decide)
            have horig' : (req.origin != env.origin) = true := by
              rw [bne, horig]; rfl
            exact Or.inl (by simp [hdev, hm, hex, hblob, hr, horig'])

/-- Witness for C2 (amended): a non-GET request is left unanswered. -/
theorem scope_untouched_witness_C2 :
    handleFetch env0 netDown csRT reqPost true = none ∨
      (hasRange reqPost = true ∧
        handleFetch env0 netDown csRT reqPost true =
          some (networkOnly netDown csRT reqPost)) :=
  scope_untouched_amended_C2 env0 netDown csRT reqPost true (by decide)

/-- Counterexample to C1 as stated: a status-200 response whose type is
`"opaqueredirect"` — a redirect treated as opaque, which the claim's
predicate rejects — satisfies `isCacheableResponse` and is present in
the runtime cache after `cacheFirst` stores it. -/
theorem cacheability_counterexample_C1 :
    opaqueRedirectRes.status = 200 ∧
      opaqueRedirectRes.type = "opaqueredirect" ∧
      isCacheableResponse opaqueRedirectRes = true ∧
      cacheMatch
        (storageGet (cacheFirst (netConst opaqueRedirectRes) csRT reqAsset true).storage
          RUNTIME_CACHE) reqAsset.url = some opaqueRedirectRes := by
  refine ⟨rfl, rfl, by decide, ?_⟩
  decide

/-- C1 (amended): an opportunistic write in `cacheFirst` or
`networkFirst` stores a network response only if its status is exactly
200 and its type is one of `"basic"`, `"opaqueredirect"` or `"default"`
(the code's `isCacheableResponse`); a response failing that predicate —
e.g. status 404, or status 200 with opaque cross-origin type — is
returned to the caller while the cache storage is left unchanged, so it
is never present in the cache afterward. -/
theorem cacheability_gate_C1 (net : Network) (cs : CacheStorage) (req : Request)
    (isNav putOk : Bool) (res : Response)
    (hres : net req = some res) (hnc : isCacheableResponse res = false) :
    ((networkFirst net cs req isNav putOk).outcome = Outcome.ok res ∧
      (networkFirst net cs req isNav putOk).storage = storageOpen cs RUNTIME_CACHE) ∧
    (cacheMatch (storageGet (storageOpen cs RUNTIME_CACHE) RUNTIME_CACHE) req.url = none →
      (cacheFirst net cs req putOk).outcome = Outcome.ok res ∧
      (cacheFirst net cs req putOk).storage = storageOpen cs RUNTIME_CACHE) := by
  constructor
  · unfold networkFirst
    simp [hres, hnc]
  · intro hmiss
    unfold cacheFirst
    simp [hres, hnc, hmiss]

/-- Witness for C1 (amended): a 404 response is returned by both
strategies and the storage is left unchanged. -/
theorem cacheability_gate_witness_C1 :
    (networkFirst (netConst notFoundRes) csRT reqApi false true).outcome =
        Outcome.ok notFoundRes ∧
      (networkFirst (netConst notFoundRes) csRT reqApi false true).storage =
        storageOpen csRT RUNTIME_CACHE ∧
      (cacheFirst (netConst notFoundRes) csRT reqAsset true).outcome =
        Outcome.ok notFoundRes := by
  have h1 := cacheability_gate_C1 (netConst notFoundRes) csRT reqApi false true
    notFoundRes rfl (by decide)
  have h2 := cacheability_gate_C1 (netConst notFoundRes) csRT reqAsset false true
    notFoundRes rfl (by decide)
  exact ⟨h1.1.1, h1.1.2, (h2.2 (by decide)).1⟩

/-- C3: the outcome either strategy delivers to the caller does not
depend on whether the un-awaited `cache.put` succeeds (`putOk`), and
when the network answers, the caller receives exactly the network
response even in the world where every cache write fails — a cache-write
failure is never surfaced to the request path. -/
theorem cache_write_noninterference_C3 (net : Network) (cs : CacheStorage)
    (req : Request) (isNav putOk : Bool) :
    (networkFirst net cs req isNav putOk).outcome =
        (networkFirst net cs req isNav true).outcome ∧
    (cacheFirst net cs req putOk).outcome = (cacheFirst net cs req true).outcome ∧
    (∀ res, net req = some res →
      (networkFirst net cs req isNav putOk).outcome = Outcome.ok res) ∧
    (∀ res, net req = some res →
      cacheMatch (storageGet (storageOpen cs RUNTIME_CACHE) RUNTIME_CACHE) req.url = none →
      (cacheFirst net cs req putOk).outcome = Outcome.ok res) := by
  refine ⟨?_, ?_, ?_, ?_⟩
  · unfold networkFirst
    cases hn : net req with
    | some res =>
        cases hc : isCacheableResponse res <;> cases putOk <;> simp [hn, hc]
    | none => simp [hn]
  · unfold cacheFirst
    cases hm : cacheMatch (storageGet (storageOpen cs RUNTIME_CACHE) RUNTIME_CACHE) req.url with
    | some cached => simp [hm]
    | none =>
        cases hn : net req with
        | some res =>
            cases hc : isCacheableResponse res <;> cases putOk <;> simp [hm, hn, hc]
        | none => simp [hm, hn]
  · intro res hres
    unfold networkFirst
    cases hc : isCacheableResponse res <;> simp [hres, hc]
  · intro res hres hmiss
    unfold cacheFirst
    cases hc : isCacheableResponse res <;> simp [hres, hmiss, hc]

/-- Witness for C3: with `putOk = false` (the cache write fails), both
strategies still hand the caller the network's 200 response. -/
theorem cache_write_noninterference_witness_C3 :
    (networkFirst (netConst scriptRes) csRT reqApi false false).outcome =
        Outcome.ok scriptRes ∧
      (cacheFirst (netConst scriptRes) csRT reqAsset false).outcome =
        Outcome.ok scriptRes := by
  have h1 := cache_write_noninterference_C3 (netConst scriptRes) csRT reqApi false false
  have h2 := cache_write_noninterference_C3 (netConst scriptRes) csRT reqAsset false false
  exact ⟨h1.2.2.1 scriptRes rfl, h2.2.2.2 scriptRes rfl (by decide)⟩

/-- C4: `cacheFirst` consults only the runtime generation. When the
request's entry exists in the static generation (where `installSW`
writes the precache) but not in the runtime generation, `cacheFirst`
misses, issues a network fetch, and returns the network response rather
than the precached entry. -/
theorem cacheFirst_runtime_only_C4 (net : Network) (cs : CacheStorage) (req : Request)
    (putOk : Bool) (pre : Response)
    (_hstatic : cacheMatch (storageGet cs STATIC_CACHE) req.url = some pre)
    (hruntime : cacheMatch (storageGet (storageOpen cs RUNTIME_CACHE) RUNTIME_CACHE) req.url
      = none) :
    Eff.netFetch req.url ∈ (cacheFirst net cs req putOk).trace ∧
      ∀ res, net req = some res → (cacheFirst net cs req putOk).outcome = Outcome.ok res := by
  constructor
  · unfold cacheFirst
    cases hn : net req with
    | some res => cases hc : isCacheableResponse res <;> simp [hruntime, hn, hc]
    | none =>
        cases hnav : (req.mode == "navigate") with
        | true =>
            cases hs : storageMatch (storageOpen cs RUNTIME_CACHE) "/" <;>
              simp [hruntime, hn, hnav, hs]
        | false => simp [hruntime, hn, hnav]
  · intro res hres
    unfold cacheFirst
    cases hc : isCacheableResponse res <;> simp [hruntime, hres, hc]

/-- Witness for C4: after a successful install, `/favicon.ico` lives
only in the static generation, and the cache-first path fetches the
network for it instead of serving the precached copy. -/
theorem cacheFirst_runtime_only_witness_C4 :
    installSW env0 netPre [] = some csInstalled ∧
      Eff.netFetch reqFav.url ∈ (cacheFirst (netConst favRes) csInstalled reqFav true).trace ∧
      (cacheFirst (netConst favRes) csInstalled reqFav true).outcome = Outcome.ok favRes := by
  have h := cacheFirst_runtime_only_C4 (netConst favRes) csInstalled reqFav true favRes
    (by decide) (by decide)
  exact ⟨by decide, h.1, h.2 favRes rfl⟩

/-- C9: a request routed to the cache-first strategy (in-scope, no range
header, not a navigation, asset-like) whose entry is present in the
runtime cache is answered with that cached entry; the storage is
unchanged and the trace holds no network fetch. -/
theorem cache_first_hit_C9 (env : SWEnv) (net : Network) (cs : CacheStorage)
    (req : Request) (putOk : Bool) (cached : Response)
    (hdev : IS_DEV_SCOPE env = false)
    (hm : req.method = "GET")
    (hex : excludedPath req.pathname = false)
    (hblob : strStarts req.url "blob:" = false)
    (hr : hasRange req = false)
    (ho : req.origin = env.origin)
    (hnav : req.mode ≠ "navigate")
    (ha : assetLike req = true)
    (hc : cacheMatch (storageGet cs RUNTIME_CACHE) req.url = some cached) :
    handleFetch env net cs req putOk =
      some ⟨Outcome.ok cached, cs,
        [Eff.openCache RUNTIME_CACHE, Eff.cacheRead RUNTIME_CACHE req.url]⟩ := by
  have hopen : storageOpen cs RUNTIME_CACHE = cs :=
    storageOpen_eq_of_match cs RUNTIME_CACHE req.url cached hc
  have hnav' : (req.mode == "navigate") = false := by
    cases hmm : (req.mode == "navigate")
    · rfl
    · exact absurd (by simpa using hmm) hnav
  unfold handleFetch cacheFirst
  simp [hdev, hm, hex, hblob, hr, ho, hnav', ha, hopen, hc]

/-- Witness for C9: `/assets/app.js` cached in the runtime generation is
served from cache with no network fetch. -/
theorem cache_first_hit_witness_C9 :
    handleFetch env0 netDown csHit reqAsset true =
      some ⟨Outcome.ok scriptRes, csHit,
        [Eff.openCache RUNTIME_CACHE, Eff.cacheRead RUNTIME_CACHE reqAsset.url]⟩ :=
  cache_first_hit_C9 env0 netDown csHit reqAsset true scriptRes (by decide) rfl
    (by decide) (by decide) (by decide) rfl (by decide) (by decide) (by decide)

/-- Counterexample to C5 as stated: with the network down, an entry for
the navigation's exact URL `/manifest.json` is cached (in the static
generation), yet `networkFirst` skips it — it reads only the runtime
generation for the exact URL — and returns the root document instead of
the cached response for that exact request. -/
theorem nav_exact_fallback_counterexample_C5 :
    storageMatch csShell reqManifestNav.url = some manifestRes ∧
      (networkFirst netDown csShell reqManifestNav true true).outcome =
        Outcome.ok shellRes ∧
      shellRes ≠ manifestRes := by
  refine ⟨by decide, ?_, by decide⟩
  decide

/-- C5 (amended): for a navigation with the network unreachable, the
controller first returns the runtime-generation cached entry for the
exact request if present; when the runtime generation has no entry for
the exact URL, it returns the cached root document found in any
generation (the app shell). Exact-URL entries in other generations are
not consulted. -/
theorem nav_fallback_chain_C5 (net : Network) (cs : CacheStorage) (req : Request)
    (putOk : Bool) (hfail : net req = none) :
    (∀ c, cacheMatch (storageGet (storageOpen cs RUNTIME_CACHE) RUNTIME_CACHE) req.url = some c →
        (networkFirst net cs req true putOk).outcome = Outcome.ok c) ∧
    (cacheMatch (storageGet (storageOpen cs RUNTIME_CACHE) RUNTIME_CACHE) req.url = none →
      ∀ f, storageMatch (storageOpen cs RUNTIME_CACHE) "/" = some f →
        (networkFirst net cs req true putOk).outcome = Outcome.ok f) := by
  constructor
  · intro c hc
    unfold networkFirst
    simp [hfail, hc]
  · intro hmiss f hf
    unfold networkFirst
    simp [hfail, hmiss, hf]

/-- Witness for C5 (amended): offline navigation to an uncached page
with the shell precached returns the shell. -/
theorem nav_fallback_chain_witness_C5 :
    (networkFirst netDown csShell reqNav true true).outcome = Outcome.ok shellRes :=
  (nav_fallback_chain_C5 netDown csShell reqNav true rfl).2 (by decide) shellRes (by decide)

/-- C6: for a non-navigation request handled network-first, when the
network fetch fails and no cache holds an entry for the request, the
caller receives the synthesized `offlineResponse`: a well-formed
response with status 503 and statusText `"Service Unavailable"` — no
exception is propagated. -/
theorem offline_response_C6 (net : Network) (cs : CacheStorage) (req : Request)
    (putOk : Bool)
    (hfail : net req = none)
    (hnone : storageMatch cs req.url = none) :
    (networkFirst net cs req false putOk).outcome = Outcome.ok offlineResponse ∧
      offlineResponse.status = 503 ∧
      offlineResponse.statusText = "Service Unavailable" ∧
      offlineResponse.body = "Offline" := by
  have hmiss : cacheMatch (storageGet (storageOpen cs RUNTIME_CACHE) RUNTIME_CACHE) req.url
      = none := by
    rw [storageGet_storageOpen]
    exact cacheMatch_of_storageMatch_none cs req.url RUNTIME_CACHE hnone
  refine ⟨?_, rfl, rfl, rfl⟩
  unfold networkFirst
  simp [hfail, hmiss]

/-- Witness for C6: an offline uncached API request yields the 503
offline response. -/
theorem offline_response_witness_C6 :
    (networkFirst netDown csRT reqApi false true).outcome = Outcome.ok offlineResponse ∧
      offlineResponse.status = 503 ∧
      offlineResponse.statusText = "Service Unavailable" ∧
      offlineResponse.body = "Offline" :=
  offline_response_C6 netDown csRT reqApi true rfl (by decide)

end SW
